import Mathlib

/-!
Verification development for the earthquake backend (tousheng4/earthquake).

The definitions below are a shallow embedding of `src/backend/database.py`,
`src/backend/listener.py`, `src/backend/api.py` and `src/backend/manage.py`.

Modelling conventions, used throughout:
* Python floats are modelled as rationals (`ℚ`); float rounding is outside
  the scope of every claim treated here.
* The `time` column holds fixed-width, zero-padded UTC ISO-8601 strings
  whose lexical order coincides with the order of the instants they denote
  (the schema casts them to TIMESTAMP).  Query-side models therefore carry
  timestamps as rationals on that common timeline; `_cutoff_iso(hours)`,
  which formats `now - hours` as such a string, becomes subtraction.
  Write-path models carry the time field as the opaque transported value.
* SQL text from the source is reproduced with its interior whitespace
  flattened to single spaces/newlines exactly as `"\n".join` produces it;
  no claim inspects the elided indentation.
* Calls into external engines (DuckDB execution, `json.loads`) are
  modelled as explicit inputs: a store function returning `Except` (an
  exception of the engine) or an `Option`-valued parser.
-/

/-- A parameter pushed into a query's parameter list: the source pushes
either strings (geometry text) or numbers (coordinates, radii, cutoff
timestamps on the rational timeline). -/
inductive PVal
  | str (s : String)
  | num (q : ℚ)
deriving DecidableEq, Repr

/-- `_cutoff_iso(hours)` of database.py lines 72-75: the instant
`now - timedelta(hours=hours)`, on the rational timeline (seconds). -/
def cutoff_iso (now : ℚ) (hours : ℤ) : ℚ := now - hours * 3600

/-- Whether `pat` occurs as a contiguous run of `l`. -/
def py_contains (pat : List Char) : List Char → Bool
  | [] => pat.isEmpty
  | c :: rest => pat.isPrefixOf (c :: rest) || py_contains pat rest

/-- Python `pat in s` on strings: substring containment. -/
def py_in_str (pat s : String) : Bool := py_contains pat.toList s.toList

/-- The builder state of `EarthquakeQuery.__init__` (database.py lines
81-87): `_where_clauses`, `_params`, `_select_fields`, `_order_by`,
`_limit`, `_require_geom`. -/
structure EarthquakeQuery where
  where_clauses : List String
  params : List PVal
  select_fields : String
  order_by_clause : String
  limit_n : Option ℤ
  require_geom : Bool
deriving DecidableEq, Repr

namespace EarthquakeQuery

/-- `EarthquakeQuery.__init__`. -/
def init : EarthquakeQuery :=
  { where_clauses := [], params := [], select_fields := "*",
    order_by_clause := "time DESC", limit_n := none, require_geom := false }

/-- `select` (lines 89-92). -/
def select (q : EarthquakeQuery) (fields : String) : EarthquakeQuery :=
  { q with select_fields := fields }

/-- `since` (lines 94-98): appends `time > ?` with the cutoff parameter.
`now` is the wall clock read inside `_cutoff_iso`. -/
def since (q : EarthquakeQuery) (now : ℚ) (hours : ℤ) : EarthquakeQuery :=
  { q with where_clauses := q.where_clauses ++ ["time > ?"],
           params := q.params ++ [.num (cutoff_iso now hours)] }

/-- `time_range` (lines 100-108): each bound, when truthy, appends its
clause and parameter; `none` models Python `None` (and the falsy empty
string). -/
def time_range (q : EarthquakeQuery) (start_iso end_iso : Option ℚ) :
    EarthquakeQuery :=
  let q1 := match start_iso with
    | some s => { q with where_clauses := q.where_clauses ++ ["time >= ?"],
                         params := q.params ++ [PVal.num s] }
    | none => q
  match end_iso with
  | some e => { q1 with where_clauses := q1.where_clauses ++ ["time <= ?"],
                        params := q1.params ++ [PVal.num e] }
  | none => q1

/-- The `ST_DWithin` clause text of `within_radius` (lines 113-119),
whitespace flattened. -/
def within_radius_clause : String :=
  "ST_DWithin( CAST(geom AS GEOGRAPHY), CAST(ST_Point(?, ?) AS GEOGRAPHY), ? )"

/-- `within_radius` (lines 110-122): radius is converted to metres. -/
def within_radius (q : EarthquakeQuery) (lon lat radius_km : ℚ) :
    EarthquakeQuery :=
  { q with where_clauses := q.where_clauses ++ [within_radius_clause],
           params := q.params ++ [.num lon, .num lat, .num (radius_km * 1000)],
           require_geom := true }

/-- `in_bbox` (lines 124-131). -/
def in_bbox (q : EarthquakeQuery) (min_lon min_lat max_lon max_lat : ℚ) :
    EarthquakeQuery :=
  { q with where_clauses :=
             q.where_clauses ++ ["ST_Intersects(geom, ST_MakeEnvelope(?, ?, ?, ?, 4326))"],
           params := q.params ++ [.num min_lon, .num min_lat, .num max_lon, .num max_lat],
           require_geom := true }

/-- `intersects` (lines 133-142): GeoJSON when the trimmed text starts
with a brace, WKT otherwise. -/
def intersects (q : EarthquakeQuery) (geom_text : String) : EarthquakeQuery :=
  let geom_expr := if geom_text.trim.startsWith "\x7b"
    then "ST_GeomFromGeoJSON(?)" else "ST_GeomFromText(?)"
  { q with where_clauses :=
             q.where_clauses ++ ["ST_Intersects(geom, " ++ geom_expr ++ ")"],
           params := q.params ++ [.str geom_text],
           require_geom := true }

/-- `nearest` (lines 144-151): replaces the projection, prepends the two
reference-point parameters, orders by the distance alias and sets the
limit. -/
def nearest (q : EarthquakeQuery) (lon lat : ℚ) (lim : ℤ) : EarthquakeQuery :=
  { q with select_fields := "*, ST_Distance_Sphere(geom, ST_Point(?, ?)) AS distance_m",
           params := .num lon :: .num lat :: q.params,
           order_by_clause := "distance_m ASC",
           limit_n := some lim,
           require_geom := true }

/-- `order_by` (lines 153-156). -/
def order_by (q : EarthquakeQuery) (o : String) : EarthquakeQuery :=
  { q with order_by_clause := o }

/-- `limit` (lines 158-161). -/
def limit (q : EarthquakeQuery) (n : ℤ) : EarthquakeQuery :=
  { q with limit_n := some n }

/-- `_build_sql` (lines 163-191).  The first two parameters are peeled
off for the SELECT list exactly when the projection mentions
`ST_Distance_Sphere`; a truthy `_limit` (non-`None` and nonzero) appends
the LIMIT part; parts are joined with newlines. -/
def build_sql (q : EarthquakeQuery) : String × List PVal :=
  let sp := if py_in_str "ST_Distance_Sphere" q.select_fields
    then (q.params.take 2, q.params.drop 2) else ([], q.params)
  let wcs := if q.require_geom
    then "geom IS NOT NULL" :: q.where_clauses else q.where_clauses
  let base := "SELECT " ++ q.select_fields ++ " FROM earthquakes"
  let parts1 := if wcs.isEmpty then [base]
    else [base, "WHERE " ++ String.intercalate " AND " wcs]
  let parts2 := parts1 ++ ["ORDER BY " ++ q.order_by_clause]
  let parts3 := match q.limit_n with
    | some n => if n ≠ 0 then parts2 ++ ["LIMIT " ++ toString n] else parts2
    | none => parts2
  (String.intercalate "\n" parts3, sp.1 ++ sp.2)

end EarthquakeQuery

/-- The query built by `get_time_window` (database.py lines 382-389)
before execution. -/
def get_time_window_query (start_iso end_iso : Option ℚ) (lim : ℤ) :
    EarthquakeQuery :=
  ((EarthquakeQuery.init.time_range start_iso end_iso).order_by "time ASC").limit lim

/-! ## The write path: `insert_earthquake` (database.py lines 246-270)

The store executes `INSERT ... ON CONFLICT (unid) DO NOTHING`: a row whose
`unid` is already present leaves the table unchanged, and the statement
still succeeds, so the function returns `True`.  (The `except` branch,
which returns `False`, fires only on an external store failure; the error
path of the read side is modelled in the `With`-suffixed functions below.) -/

/-- The dictionary handed to `insert_earthquake`: the listener's
`quake_data` and the CSV importer's `quake` both have exactly these keys.
The time value is carried opaquely (an ISO string, possibly absent on the
CSV path). -/
structure QuakeData where
  unid : String
  time : Option String
  latitude : ℚ
  longitude : ℚ
  depth : Option ℚ
  magnitude : ℚ
  region : String
deriving DecidableEq, Repr

/-- A persisted row of the `earthquakes` table as the write path creates
it: the seven supplied fields plus `geom = ST_Point(longitude, latitude)`
computed in the same write (lines 250, 261-262). -/
structure DbRow where
  unid : String
  time : Option String
  latitude : ℚ
  longitude : ℚ
  depth : Option ℚ
  magnitude : ℚ
  region : String
  geom : ℚ × ℚ
deriving DecidableEq, Repr

/-- The row the INSERT of lines 248-263 writes for `d`. -/
def row_of (d : QuakeData) : DbRow :=
  { unid := d.unid, time := d.time, latitude := d.latitude,
    longitude := d.longitude, depth := d.depth, magnitude := d.magnitude,
    region := d.region, geom := (d.longitude, d.latitude) }

/-- `insert_earthquake` (lines 246-270) over the table state:
`ON CONFLICT (unid) DO NOTHING`, then `return True`. -/
def insert_earthquake (store : List DbRow) (d : QuakeData) :
    List DbRow × Bool :=
  if store.any (fun r => r.unid == d.unid) then (store, true)
  else (store ++ [row_of d], true)

/-! ## Query-side table semantics

For the read-path claims a persisted row is carried with its timestamp on
the rational timeline (see the header note on ISO strings), its
coordinates, and its possibly-NULL geometry column. -/

/-- A row of the `earthquakes` table as the read path sees it. -/
structure EqRow where
  unid : String
  time : ℚ
  latitude : ℚ
  longitude : ℚ
  depth : Option ℚ
  magnitude : ℚ
  region : String
  geom : Option (ℚ × ℚ)
deriving DecidableEq, Repr

/-- `get_recent_earthquakes` (lines 275-277): the store evaluates the
query built by `EarthquakeQuery().since(hours)` — `WHERE time > ?` with
the cutoff parameter, `ORDER BY time DESC`, no limit. -/
def get_recent_earthquakes (now : ℚ) (hours : ℤ) (table : List EqRow) :
    List EqRow :=
  (table.filter (fun r => decide (cutoff_iso now hours < r.time))).mergeSort
    (fun a b => decide (b.time ≤ a.time))

/-! ## The listener: `process_message` (listener.py lines 27-76)

The raw WebSocket message goes through `json.loads`; only
`json.JSONDecodeError` is caught (lines 29-33), so the model takes the
decode result as input: `none` is an unparseable payload, `some j` the
decoded JSON value.  Every other Python exception raised inside the
function propagates to the caller and is modelled as `Except.error`. -/

/-- A decoded JSON value (the result of `json.loads`). -/
inductive Json
  | null
  | bool (b : Bool)
  | num (q : ℚ)
  | str (s : String)
  | arr (l : List Json)
  | obj (l : List (String × Json))

/-- The Python exceptions the listener and importer models can raise. -/
inductive PyErr
  | keyError
  | indexError
  | typeError
  | valueError
  | attributeError
deriving DecidableEq, Repr

/-- Python `d.get(k, default)`: defined on dicts only — on any other
value `.get` raises `AttributeError`. -/
def dict_get (j : Json) (k : String) (default : Json) : Except PyErr Json :=
  match j with
  | .obj kvs => .ok ((kvs.lookup k).getD default)
  | _ => .error .attributeError

/-- Python `x[i]` for a non-negative literal index: lists and strings
index positionally (`IndexError` past the end), dicts raise `KeyError`
(the integer is not among a decoded object's string keys), everything
else `TypeError`. -/
def py_index (j : Json) (i : ℕ) : Except PyErr Json :=
  match j with
  | .arr l => match l.get? i with
    | some v => .ok v
    | none => .error .indexError
  | .str s => match s.toList.get? i with
    | some c => .ok (.str (String.singleton c))
    | none => .error .indexError
  | .obj _ => .error .keyError
  | _ => .error .typeError

/-- Whether `j` is Python `None` (JSON `null`). -/
def Json.isNull : Json → Bool
  | .null => true
  | _ => false

/-- Python truthiness of a decoded JSON value (`not event_time`):
`None`, `False`, zero, the empty string, the empty list and the empty
dict are falsy. -/
def j_falsy : Json → Bool
  | .null => true
  | .bool b => !b
  | .num q => q == 0
  | .str s => s == ""
  | .arr l => l.isEmpty
  | .obj l => l.isEmpty

/-- Split a character list at every occurrence of `c` (the pieces
between separators, like Python `str.split(c)`). -/
def split_on_char (c : Char) : List Char → List (List Char)
  | [] => [[]]
  | x :: xs =>
    let r := split_on_char c xs
    if x = c then [] :: r
    else match r with
      | h :: t => (x :: h) :: t
      | [] => [[x]]

/-- The value of a nonempty all-digit run; `none` when empty or any
character is not a digit. -/
def digits_val (l : List Char) : Option ℕ :=
  if l.isEmpty then none
  else l.foldl
    (fun acc c => match acc with
      | none => none
      | some n => if c.isDigit
          then some (n * 10 + (c.toNat - 48)) else none)
    (some 0)

/-- Strip leading and trailing whitespace. -/
def trim_chars (l : List Char) : List Char :=
  ((l.dropWhile (·.isWhitespace)).reverse.dropWhile (·.isWhitespace)).reverse

/-- A decimal literal accepted by Python `float(str)` (optional sign,
digits around one optional dot, surrounding whitespace ignored).
Exponents, `inf`/`nan` and underscore separators are not modelled; no
claim feeds them. -/
def parse_float (s : String) : Option ℚ :=
  let core := fun (r : List Char) (sign : ℚ) =>
    match split_on_char '.' r with
    | [i] => (digits_val i).map (fun n => sign * (n : ℚ))
    | [i, f] =>
        if i.isEmpty && f.isEmpty then none
        else if (i.isEmpty || (digits_val i).isSome)
            && (f.isEmpty || (digits_val f).isSome)
        then some (sign * (((digits_val i).getD 0 : ℚ)
                   + ((digits_val f).getD 0 : ℚ) / (10 : ℚ) ^ f.length))
        else none
    | _ => none
  match trim_chars s.toList with
  | '-' :: r => core r (-1)
  | '+' :: r => core r 1
  | r => core r 1

/-- Python `float(x)` on a decoded JSON value: numbers pass through,
booleans become 0/1, strings are parsed (`ValueError` on failure),
`None` and containers raise `TypeError`. -/
def py_float (j : Json) : Except PyErr ℚ :=
  match j with
  | .num q => .ok q
  | .bool b => .ok (if b then 1 else 0)
  | .str s => match parse_float s with
    | some q => .ok q
    | none => .error .valueError
  | .null => .error .typeError
  | .arr _ => .error .typeError
  | .obj _ => .error .typeError

/-- Python `x.replace(",", " ")` — the one replace the listener performs
(line 52): a string method, so `AttributeError` on any other value; with
a one-character pattern and replacement it maps each comma to a space. -/
def py_replace_comma (j : Json) : Except PyErr String :=
  match j with
  | .str s => .ok (String.mk (s.toList.map (fun c => if c = ',' then ' ' else c)))
  | _ => .error .attributeError

/-- The time canonicalisation of listener.py lines 54-57: re-parse and
re-format the ISO string.  Any exception is swallowed (`except ... pass`),
so the step is total; the re-formatted string denotes the same instant,
and no claim inspects its text, so the value is carried through. -/
def normalize_event_time (j : Json) : Json := j

/-- The VARCHAR the store binds for a scalar JSON parameter (the `unid`
and `time` fields are passed as decoded values and cast by the store).
Non-scalar identities would fail the store binding; no claim feeds one. -/
def val_to_varchar : Json → String
  | .str s => s
  | .num q => toString q
  | .bool b => if b then "True" else "False"
  | _ => ""

/-- The log lines `process_message` can emit: the two `logger.warning`
rejections (lines 32, 49) and the `logger.info("New EQ: ...")`
announcement (lines 70-76) with its interpolated values. -/
inductive LogMsg
  | warnNotJson
  | warnIncomplete
  | infoNewEQ (mag : ℚ) (region : String) (lat lon : ℚ)
deriving DecidableEq, Repr

/-- `process_message` (listener.py lines 27-76) over the decoded payload
and the table state: returns the new table state and the log lines, or
the Python exception that propagates out of the function. -/
def process_message (parsed : Option Json) (store : List DbRow) :
    Except PyErr (List DbRow × List LogMsg) := do
  match parsed with
  | none => return (store, [.warnNotJson])
  | some data =>
    let event ← dict_get data "data" (.obj [])
    let props ← dict_get event "properties" (.obj [])
    let geometry ← dict_get event "geometry" (.obj [])
    let event_time ← dict_get props "time" (.str "")
    let magnitude ← dict_get props "mag" .null
    let region0 ← dict_get props "flynn_region" (.str "")
    let unid ← dict_get props "unid" .null
    let depth ← dict_get props "depth" .null
    let coordinates ← dict_get geometry "coordinates" (.arr [.null, .null])
    let longitude ← py_index coordinates 0
    let latitude ← py_index coordinates 1
    if unid.isNull || longitude.isNull || latitude.isNull
        || magnitude.isNull || j_falsy event_time then
      return (store, [.warnIncomplete])
    let region ← py_replace_comma region0
    let event_time1 := normalize_event_time event_time
    let latQ ← py_float latitude
    let lonQ ← py_float longitude
    let magQ ← py_float magnitude
    let depthQ ← match depth with
      | .null => pure (none : Option ℚ)
      | d => some <$> py_float d
    let quake_data : QuakeData :=
      { unid := val_to_varchar unid, time := some (val_to_varchar event_time1),
        latitude := latQ, longitude := lonQ, magnitude := magQ,
        region := region, depth := depthQ }
    let ins := insert_earthquake store quake_data
    if ins.2 then
      return (ins.1, [.infoNewEQ magQ region latQ lonQ])
    else
      return (ins.1, [])

/-! ## Bulk import: `import_csv` (manage.py lines 19-46)

A `csv.DictReader` row is an association from header names to string
cell values.  Brackets (`row["latitude"]`) raise `KeyError` on a missing
header; `row.get(k)` yields `None` instead.  Exceptions propagate out of
`import_csv` (the `main` wrapper prints them and exits), aborting the
rest of the import. -/

/-- One CSV data row keyed by the file's header names. -/
abbrev CsvRow := List (String × String)

/-- Python `row[k]` on a `DictReader` row. -/
def csv_bracket (row : CsvRow) (k : String) : Except PyErr String :=
  match row.lookup k with
  | some v => .ok v
  | none => .error .keyError

/-- Python `row.get(k1) or row.get(k2)`: the first truthy value (a
missing key and the empty string are falsy). -/
def csv_get_or (row : CsvRow) (k1 k2 : String) : Option String :=
  match row.lookup k1 with
  | some s => if s == "" then row.lookup k2 else some s
  | none => row.lookup k2

/-- Python `float(v)` for an optional cell value: `float(None)` raises
`TypeError`, an unparseable string `ValueError`. -/
def py_float_cell (v : Option String) : Except PyErr ℚ :=
  match v with
  | none => .error .typeError
  | some s => match parse_float s with
    | some q => .ok q
    | none => .error .valueError

/-- `row["latitude"] or row["LATITUDE"]` followed by `float(...)`
(manage.py lines 30-31): bracket access on the lowercase header first —
`KeyError` when the file only has the uppercase header. -/
def csv_bracket_or_float (row : CsvRow) (k1 k2 : String) : Except PyErr ℚ := do
  let a ← csv_bracket row k1
  let v ← if a == "" then csv_bracket row k2 else pure a
  match parse_float v with
  | some q => pure q
  | none => throw .valueError

/-- The `depth` expression of lines 32-38: a conditional chain on the
truthiness of `row.get`, bracketing only keys just seen to be present. -/
def csv_depth (row : CsvRow) : Except PyErr (Option ℚ) :=
  match row.lookup "depth" with
  | some s =>
    if s == "" then
      match row.lookup "DEPTH" with
      | some t => if t == "" then .ok none else (py_float_cell (some t)).map some
      | none => .ok none
    else (py_float_cell (some s)).map some
  | none =>
    match row.lookup "DEPTH" with
    | some t => if t == "" then .ok none else (py_float_cell (some t)).map some
    | none => .ok none

/-- Building the `quake` dict and the identity check for one CSV row
(manage.py lines 27-43): `ok none` is a skipped row (falsy `unid`),
`ok (some q)` a record to insert, `error` a propagating exception. -/
def import_row (row : CsvRow) : Except PyErr (Option QuakeData) := do
  let unid := csv_get_or row "unid" "UNID"
  let time := csv_get_or row "time" "TIME"
  let latitude ← csv_bracket_or_float row "latitude" "LATITUDE"
  let longitude ← csv_bracket_or_float row "longitude" "LONGITUDE"
  let depth ← csv_depth row
  let magnitude ← py_float_cell (csv_get_or row "magnitude" "MAGNITUDE")
  let region := (csv_get_or row "region" "REGION").getD ""
  match unid with
  | none => return none
  | some u =>
    if u == "" then return none
    else return some { unid := u, time := time, latitude := latitude,
                       longitude := longitude, depth := depth,
                       magnitude := magnitude, region := region }

/-- `import_csv` (manage.py lines 19-46) over the parsed data rows:
the final table state and the imported-row count, or the first
propagating exception (which aborts the remaining rows). -/
def import_csv (rows : List CsvRow) (store : List DbRow) :
    Except PyErr (List DbRow × ℕ) :=
  rows.foldlM
    (fun acc row => do
      match ← import_row row with
      | none => pure acc
      | some q => pure ((insert_earthquake acc.1 q).1, acc.2 + 1))
    (store, 0)

/-! ## Result projection

`api._to_feature_collection` (api.py lines 31-49) walks result rows
(dictionaries from `DataFrame.to_dict`, here associations from column
name to value) and builds features; `EarthquakeQuery.to_geojson`
(database.py lines 206-239) instead has the store render features with a
fixed `json_object` property list. -/

/-- A result row: column name to decoded value. -/
abbrev RowKV := List (String × Json)

/-- Truthiness of the `geom_field` argument (`if geom_field and ...`). -/
def geom_field_truthy : Option String → Bool
  | none => false
  | some s => !(s == "")

/-- The feature object `{"type": "Feature", "geometry": g,
"properties": props}`. -/
def mk_feature (g : Json) (props : RowKV) : Json :=
  .obj [("type", .str "Feature"), ("geometry", g), ("properties", .obj props)]

/-- The property dictionary of `_to_feature_collection` (api.py line 47):
every column whose name is in neither `geom` nor the `geom_field`
argument. -/
def props_of (geom_field : Option String) (row : RowKV) : RowKV :=
  row.filter (fun kv => !(kv.1 == "geom") && !(some kv.1 == geom_field))

/-- One iteration of the `_to_feature_collection` loop (api.py lines
34-48): `none` is a `continue` (skipped row).  `loads` is `json.loads`
(`none` = raised, caught by the `except ... continue`); a non-string
geometry value raises inside the same `try` and is likewise skipped. -/
def feature_of (loads : String → Option Json) (geom_field : Option String)
    (row : RowKV) : Option Json :=
  if geom_field_truthy geom_field
      && (match geom_field.bind row.lookup with
          | some v => !(j_falsy v)
          | none => false) then
    match geom_field.bind row.lookup with
    | some (.str s) =>
      match loads s with
      | some g => some (mk_feature g (props_of geom_field row))
      | none => none
    | _ => none
  else
    match row.lookup "longitude", row.lookup "latitude" with
    | some lon, some lat =>
      if lon.isNull || lat.isNull then none
      else some (mk_feature
        (.obj [("type", .str "Point"), ("coordinates", .arr [lon, lat])])
        (props_of geom_field row))
    | _, _ => none

/-- `_to_feature_collection` (api.py lines 31-49). -/
def to_feature_collection (loads : String → Option Json)
    (geom_field : Option String) (rows : List RowKV) : Json :=
  .obj [("type", .str "FeatureCollection"),
        ("features", .arr (rows.filterMap (feature_of loads geom_field)))]

/-- The fixed property list of `to_geojson`'s `json_object` (database.py
lines 218-226): exactly `unid, time, latitude, longitude, depth,
magnitude, region`, whatever other columns the row carries. -/
def to_geojson_props (row : RowKV) : RowKV :=
  [("unid", (row.lookup "unid").getD .null),
   ("time", (row.lookup "time").getD .null),
   ("latitude", (row.lookup "latitude").getD .null),
   ("longitude", (row.lookup "longitude").getD .null),
   ("depth", (row.lookup "depth").getD .null),
   ("magnitude", (row.lookup "magnitude").getD .null),
   ("region", (row.lookup "region").getD .null)]

/-- The features `to_geojson`'s wrapped query renders (database.py lines
211-232): rows of the inner result with non-NULL `geom`, geometry from
`ST_AsGeoJSON(geom)` (the store's renderer, a parameter here), and the
fixed property list. -/
def to_geojson_features (as_geojson : Json → Json) (rows : List RowKV) :
    List Json :=
  (rows.filter (fun r => match r.lookup "geom" with
    | some v => !v.isNull
    | none => false)).map
    (fun r => mk_feature (as_geojson ((r.lookup "geom").getD .null))
      (to_geojson_props r))

/-- The empty FeatureCollection both error paths fall back to. -/
def empty_fc : Json :=
  .obj [("type", .str "FeatureCollection"), ("features", .arr [])]

/-! ## The read-path error handling (claim C6)

Each wrapper hands the built request to the store and catches every
store exception (`except Exception`), logging and returning the empty
result.  The store is a function argument returning `Except`; the
`String` on the error side is the exception text.  The second component
of each result is the list of error-log lines the call emitted. -/

/-- `EarthquakeQuery.execute` (database.py lines 193-204): on success
the `geom` column is dropped from every row; on any store error the
result is `[]` and the failure is logged. -/
def EarthquakeQuery.executeWith (q : EarthquakeQuery)
    (st : String → List PVal → Except String (List RowKV)) :
    List RowKV × List String :=
  let sp := q.build_sql
  match st sp.1 sp.2 with
  | .ok df => (df.map (fun r => r.filter (fun kv => !(kv.1 == "geom"))), [])
  | .error _ => ([], ["Error executing query"])

/-- The GeoJSON wrapping query of `to_geojson` (database.py lines
211-232), whitespace flattened. -/
def geojson_wrap (sql : String) : String :=
  "SELECT json_object( 'type', 'FeatureCollection', 'features', json_group_array( json_object( 'type', 'Feature', 'geometry', json(ST_AsGeoJSON(geom)), 'properties', json_object( 'unid', unid, 'time', \"time\", 'latitude', latitude, 'longitude', longitude, 'depth', depth, 'magnitude', magnitude, 'region', region ) ) ) ) as geojson FROM ("
  ++ sql ++ ") WHERE geom IS NOT NULL"

/-- `EarthquakeQuery.to_geojson` (database.py lines 206-239): the store
returns the single fetched row (`none` = no row, `some none` = NULL
cell, `some (some j)` = the rendered collection, already decoded — the
`json.loads` round-trip is inside the same `try`); any store error
yields the empty collection and a log line. -/
def EarthquakeQuery.to_geojsonWith (q : EarthquakeQuery)
    (st : String → List PVal → Except String (Option (Option Json))) :
    Json × List String :=
  let sp := q.build_sql
  match st (geojson_wrap sp.1) sp.2 with
  | .ok (some (some j)) => (j, [])
  | .ok _ => (empty_fc, [])
  | .error _ => (empty_fc, ["Error executing GeoJSON query"])

/-- The SQL text of `buffered_events` (database.py lines 322-333),
whitespace flattened. -/
def buffered_events_sql : String :=
  "SELECT unid, time, latitude, longitude, depth, magnitude, region, ST_AsGeoJSON( ST_Buffer( CAST(geom AS GEOGRAPHY), ? )::GEOMETRY ) AS buffer_geojson FROM earthquakes WHERE time > ? AND geom IS NOT NULL"

/-- `buffered_events` (database.py lines 316-339). -/
def buffered_events (radius_km now : ℚ) (hours : ℤ)
    (st : String → List PVal → Except String (List RowKV)) :
    List RowKV × List String :=
  match st buffered_events_sql
      [.num (radius_km * 1000), .num (cutoff_iso now hours)] with
  | .ok df => (df, [])
  | .error _ => ([], ["Error executing buffered_events query"])

/-- The SQL text of `cluster_grid` (database.py lines 348-373),
whitespace flattened. -/
def cluster_grid_sql : String :=
  "WITH bucketed AS ( SELECT FLOOR(longitude / ?) AS lon_bin, FLOOR(latitude / ?) AS lat_bin, longitude, latitude, magnitude, time FROM earthquakes WHERE time > ? AND geom IS NOT NULL ) SELECT lon_bin, lat_bin, COUNT(*) AS count, AVG(magnitude) AS avg_magnitude, MIN(time) AS min_time, MAX(time) AS max_time, AVG(longitude) AS center_lon, AVG(latitude) AS center_lat FROM bucketed GROUP BY lon_bin, lat_bin HAVING count > 0 ORDER BY count DESC"

/-- `cluster_grid`'s store call and error handling (database.py lines
342-379): parameters `[step, step, cutoff]` with `step = cell_km/111`. -/
def cluster_gridWith (cell_km now : ℚ) (hours : ℤ)
    (st : String → List PVal → Except String (List RowKV)) :
    List RowKV × List String :=
  let step := cell_km / 111
  match st cluster_grid_sql
      [.num step, .num step, .num (cutoff_iso now hours)] with
  | .ok df => (df, [])
  | .error _ => ([], ["Error executing cluster_grid query"])

/-! ## Grid clustering semantics (claim C7)

The table-level meaning of the `cluster_grid` SQL (database.py lines
348-373): bucket the in-window rows by `FLOOR(longitude/step),
FLOOR(latitude/step)`, aggregate per bucket, order by count descending.
`HAVING count > 0` never removes a group, since every group comes from at
least one row. -/

/-- The in-window predicate of the `bucketed` CTE:
`time > cutoff AND geom IS NOT NULL`. -/
def in_window (now : ℚ) (hours : ℤ) (r : EqRow) : Bool :=
  decide (cutoff_iso now hours < r.time) && r.geom.isSome

/-- The bucket of a row: `(FLOOR(longitude/step), FLOOR(latitude/step))`. -/
def cluster_key (step : ℚ) (r : EqRow) : ℤ × ℤ :=
  (⌊r.longitude / step⌋, ⌊r.latitude / step⌋)

/-- One output row of the grouped SELECT. -/
structure ClusterCell where
  lon_bin : ℤ
  lat_bin : ℤ
  count : ℕ
  avg_magnitude : ℚ
  min_time : ℚ
  max_time : ℚ
  center_lon : ℚ
  center_lat : ℚ
deriving DecidableEq, Repr

/-- SQL `MIN` over a (nonempty) list of values; `0` for the empty list,
which grouping never produces. -/
def list_min : List ℚ → ℚ
  | [] => 0
  | x :: xs => xs.foldl min x

/-- SQL `MAX` over a (nonempty) list of values. -/
def list_max : List ℚ → ℚ
  | [] => 0
  | x :: xs => xs.foldl max x

/-- The aggregate row for bucket `k` over the in-window rows:
`COUNT(*), AVG(magnitude), MIN(time), MAX(time), AVG(longitude),
AVG(latitude)`. -/
def cell_of (step : ℚ) (rows : List EqRow) (k : ℤ × ℤ) : ClusterCell :=
  let ms := rows.filter (fun r => decide (cluster_key step r = k))
  { lon_bin := k.1, lat_bin := k.2, count := ms.length,
    avg_magnitude := (ms.map (·.magnitude)).sum / (ms.length : ℚ),
    min_time := list_min (ms.map (·.time)),
    max_time := list_max (ms.map (·.time)),
    center_lon := (ms.map (·.longitude)).sum / (ms.length : ℚ),
    center_lat := (ms.map (·.latitude)).sum / (ms.length : ℚ) }

/-- `cluster_grid` (database.py lines 342-379) over the table state:
`step_deg = cell_km / 111.0`, one aggregate row per occupied bucket,
ordered by count descending. -/
def cluster_grid (cell_km now : ℚ) (hours : ℤ) (table : List EqRow) :
    List ClusterCell :=
  let step := cell_km / 111
  let rows := table.filter (in_window now hours)
  (((rows.map (cluster_key step)).dedup).map (cell_of step rows)).mergeSort
    (fun a b => decide (b.count ≤ a.count))

/-- Reduction of a successful bind in the `Except` monad. -/
theorem except_ok_bind {ε α β : Type} (a : α) (f : α → Except ε β) :
    (Except.ok a : Except ε α) >>= f = f a := rfl

/-! # Claims -/

section Claims

/-- C1: inserting an event record whose `unid` already exists is a silent
no-op — after a first insert of `d` into a table with no row for that
identity, a second insert of any record `e` with the same identity leaves
the table unchanged, the table holds exactly the first write's row for
that identity, and both inserts return `True`. -/
theorem insert_earthquake_idempotent (store : List DbRow) (d e : QuakeData)
    (hfresh : ∀ r ∈ store, r.unid ≠ d.unid) (hid : e.unid = d.unid) :
    (insert_earthquake store d).2 = true
    ∧ (insert_earthquake (insert_earthquake store d).1 e).2 = true
    ∧ (insert_earthquake (insert_earthquake store d).1 e).1
        = (insert_earthquake store d).1
    ∧ (insert_earthquake (insert_earthquake store d).1 e).1.filter
        (fun r => r.unid == d.unid) = [row_of d] := by
  have h1 : store.any (fun r => r.unid == d.unid) = false := by
    simp only [List.any_eq_false, beq_iff_eq]
    exact hfresh
  have e1 : insert_earthquake store d = (store ++ [row_of d], true) := by
    simp [insert_earthquake, h1]
  have h2 : (store ++ [row_of d]).any (fun r => r.unid == e.unid) = true := by
    simp [List.any_append, row_of, hid]
  have e2 : insert_earthquake (store ++ [row_of d]) e
      = (store ++ [row_of d], true) := by
    simp [insert_earthquake, h2]
  have hf : store.filter (fun r => r.unid == d.unid) = [] := by
    simp only [List.filter_eq_nil_iff, beq_iff_eq]
    exact hfresh
  refine ⟨by simp [e1], ?_, ?_, ?_⟩
  · rw [e1]; simp [e2]
  · rw [e1]; simp [e2]
  · rw [e1]; simp only [e2]
    simp [List.filter_append, hf, row_of]

/-- C1 witness: the idempotent-insert theorem at a concrete record on the
empty table. -/
theorem insert_earthquake_idempotent_witness :
    letI d : QuakeData :=
      { unid := "A1", time := some "2024-01-01T00:00:00.000000Z",
        latitude := 20, longitude := 10, depth := none, magnitude := 9/2,
        region := "Northern" }
    (insert_earthquake [] d).2 = true
    ∧ (insert_earthquake (insert_earthquake [] d).1 d).2 = true
    ∧ (insert_earthquake (insert_earthquake [] d).1 d).1
        = (insert_earthquake [] d).1
    ∧ (insert_earthquake (insert_earthquake [] d).1 d).1.filter
        (fun r => r.unid == "A1") = [row_of d] :=
  insert_earthquake_idempotent [] _ _ (by simp) rfl

/-- A row sitting exactly at the cutoff of a `recent(1 hour)` query taken
at `now = 7200` on the rational timeline. -/
def c2_row : EqRow :=
  { unid := "A1", time := 3600, latitude := 20, longitude := 10,
    depth := none, magnitude := 9/2, region := "X", geom := some (10, 20) }

/-- C2 counterexample: an event whose `occurred_at` equals `now - hours`
satisfies the claim's inclusion condition (`occurred_at >= now - hours`)
yet `recent(hours)` returns it in no row — the filter `time > ?` is
strict, so the boundary event is excluded. -/
theorem recent_cutoff_boundary_cex :
    cutoff_iso 7200 1 ≤ c2_row.time
    ∧ c2_row ∈ ([c2_row] : List EqRow)
    ∧ get_recent_earthquakes 7200 1 [c2_row] = [] := by
  refine ⟨by norm_num [cutoff_iso, c2_row], by simp, ?_⟩
  have hf : List.filter (fun r => decide (cutoff_iso 7200 1 < r.time))
      [c2_row] = [] := by
    norm_num [List.filter_cons, c2_row, cutoff_iso]
  simp [get_recent_earthquakes, hf]

/-- C2 amended: `recent(hours)` contains a stored event exactly when its
`occurred_at` is strictly later than `now - hours`; an event exactly at
the cutoff is excluded.  The second conjunct pins the built query:
`WHERE time > ?` with the cutoff as the sole parameter, ordered by time
descending, no limit. -/
theorem recent_strict_cutoff (now : ℚ) (hours : ℤ) (table : List EqRow)
    (r : EqRow) :
    (r ∈ get_recent_earthquakes now hours table
      ↔ r ∈ table ∧ cutoff_iso now hours < r.time)
    ∧ (EarthquakeQuery.init.since now hours).build_sql
        = ("SELECT * FROM earthquakes\nWHERE time > ?\nORDER BY time DESC",
           [.num (cutoff_iso now hours)]) := by
  constructor
  · simp [get_recent_earthquakes, List.mem_filter]
  · rfl

/-- C6: when the backing store raises on the issued request, `execute`
returns `[]`, `to_geojson` the empty FeatureCollection, and
`buffered_events` and `cluster_grid` `[]`; each logs the failure and no
exception reaches the caller (the functions are total). -/
theorem query_failure_yields_empty (q : EarthquakeQuery)
    (rkm ckm now : ℚ) (hours : ℤ) (e : String) :
    q.executeWith (fun _ _ => .error e) = ([], ["Error executing query"])
    ∧ q.to_geojsonWith (fun _ _ => .error e)
        = (empty_fc, ["Error executing GeoJSON query"])
    ∧ buffered_events rkm now hours (fun _ _ => .error e)
        = ([], ["Error executing buffered_events query"])
    ∧ cluster_gridWith ckm now hours (fun _ _ => .error e)
        = ([], ["Error executing cluster_grid query"]) :=
  ⟨rfl, rfl, rfl, rfl⟩

/-- C10: a limit of `0` is falsy for `if self._limit:`, so the built SQL
is exactly the SQL of the same query with no limit set, and the SQL
compiled for `get_time_window(..., limit=0)` contains no LIMIT fragment
at all — every matching row is returned. -/
theorem limit_zero_is_no_limit (q : EarthquakeQuery) (s e : Option ℚ) :
    (q.limit 0).build_sql = { q with limit_n := none }.build_sql
    ∧ (get_time_window_query s e 0).build_sql
        = ((EarthquakeQuery.init.time_range s e).order_by "time ASC").build_sql
    ∧ py_in_str "LIMIT" ((get_time_window_query s e 0).build_sql).1 = false := by
  refine ⟨rfl, ?_, ?_⟩
  · cases s <;> cases e <;> rfl
  · cases s <;> cases e <;> rfl

end Claims

/-! ## Claim C4: nearest-neighbour parameter placement -/

/-- One filter clause a caller can chain onto a query (the five
filter-adding builder methods). -/
inductive FilterOp
  | since (now : ℚ) (hours : ℤ)
  | time_range (start_iso end_iso : Option ℚ)
  | within_radius (lon lat radius_km : ℚ)
  | in_bbox (min_lon min_lat max_lon max_lat : ℚ)
  | intersects (geom_text : String)

/-- Apply one filter method to the builder. -/
def apply_filter (q : EarthquakeQuery) : FilterOp → EarthquakeQuery
  | .since now hours => q.since now hours
  | .time_range s e => q.time_range s e
  | .within_radius lon lat r => q.within_radius lon lat r
  | .in_bbox a b c d => q.in_bbox a b c d
  | .intersects g => q.intersects g

/-- Apply a chain of filter methods in order. -/
def apply_filters (q : EarthquakeQuery) (ops : List FilterOp) :
    EarthquakeQuery :=
  ops.foldl apply_filter q

/-- The parameters one filter method appends. -/
def filter_params : FilterOp → List PVal
  | .since now hours => [.num (cutoff_iso now hours)]
  | .time_range s e =>
      (match s with | some v => [PVal.num v] | none => [])
      ++ (match e with | some v => [PVal.num v] | none => [])
  | .within_radius lon lat r => [.num lon, .num lat, .num (r * 1000)]
  | .in_bbox a b c d => [.num a, .num b, .num c, .num d]
  | .intersects g => [.str g]

/-- The parameters a chain of filter methods appends, in call order. -/
def filters_params : List FilterOp → List PVal
  | [] => []
  | op :: rest => filter_params op ++ filters_params rest

/-- The WHERE clause(s) one filter method appends. -/
def filter_clause : FilterOp → List String
  | .since _ _ => ["time > ?"]
  | .time_range s e =>
      (match s with | some _ => ["time >= ?"] | none => [])
      ++ (match e with | some _ => ["time <= ?"] | none => [])
  | .within_radius _ _ _ => [EarthquakeQuery.within_radius_clause]
  | .in_bbox _ _ _ _ => ["ST_Intersects(geom, ST_MakeEnvelope(?, ?, ?, ?, 4326))"]
  | .intersects g =>
      [if g.trim.startsWith "\x7b"
       then "ST_Intersects(geom, ST_GeomFromGeoJSON(?))"
       else "ST_Intersects(geom, ST_GeomFromText(?))"]

/-- The WHERE clauses of a chain of filter methods, in call order. -/
def filters_clauses : List FilterOp → List String
  | [] => []
  | op :: rest => filter_clause op ++ filters_clauses rest

/-- Every filter method only appends to `_where_clauses` and `_params`
(keeping insertion order), never unsets `_require_geom`, and leaves the
projection, the ordering and the limit alone. -/
theorem apply_filter_effect (q : EarthquakeQuery) (op : FilterOp) :
    (apply_filter q op).params = q.params ++ filter_params op
    ∧ (apply_filter q op).where_clauses = q.where_clauses ++ filter_clause op
    ∧ (apply_filter q op).select_fields = q.select_fields
    ∧ (apply_filter q op).order_by_clause = q.order_by_clause
    ∧ (apply_filter q op).limit_n = q.limit_n
    ∧ (q.require_geom = true → (apply_filter q op).require_geom = true) := by
  cases op with
  | since now hours => exact ⟨rfl, rfl, rfl, rfl, rfl, fun h => h⟩
  | time_range s e =>
    cases s <;> cases e <;>
      simp [apply_filter, EarthquakeQuery.time_range, filter_params, filter_clause]
  | within_radius lon lat r => exact ⟨rfl, rfl, rfl, rfl, rfl, fun _ => rfl⟩
  | in_bbox a b c d => exact ⟨rfl, rfl, rfl, rfl, rfl, fun _ => rfl⟩
  | intersects g =>
    refine ⟨rfl, ?_, rfl, rfl, rfl, fun _ => rfl⟩
    by_cases hg : g.trim.startsWith "\x7b" = true <;>
      simp [apply_filter, EarthquakeQuery.intersects, filter_clause, hg]

/-- `apply_filter_effect` lifted to a chain of filters. -/
theorem apply_filters_effect (ops : List FilterOp) (q : EarthquakeQuery) :
    (apply_filters q ops).params = q.params ++ filters_params ops
    ∧ (apply_filters q ops).where_clauses = q.where_clauses ++ filters_clauses ops
    ∧ (apply_filters q ops).select_fields = q.select_fields
    ∧ (apply_filters q ops).order_by_clause = q.order_by_clause
    ∧ (apply_filters q ops).limit_n = q.limit_n
    ∧ (q.require_geom = true → (apply_filters q ops).require_geom = true) := by
  induction ops generalizing q with
  | nil => exact ⟨by simp [apply_filters, filters_params],
      by simp [apply_filters, filters_clauses], rfl, rfl, rfl, fun h => h⟩
  | cons op rest ih =>
    have hstep : apply_filters q (op :: rest)
        = apply_filters (apply_filter q op) rest := rfl
    obtain ⟨p1, w1, s1, o1, l1, g1⟩ := apply_filter_effect q op
    obtain ⟨p2, w2, s2, o2, l2, g2⟩ := ih (apply_filter q op)
    refine ⟨?_, ?_, ?_, ?_, ?_, ?_⟩
    · rw [hstep, p2, p1, filters_params, List.append_assoc]
    · rw [hstep, w2, w1, filters_clauses, List.append_assoc]
    · rw [hstep, s2, s1]
    · rw [hstep, o2, o1]
    · rw [hstep, l2, l1]
    · intro h; rw [hstep]; exact g2 (g1 h)

/-- The backing store's evaluation of the `ORDER BY distance_m ASC`
and `LIMIT n` tail of the built nearest query: sort the matching rows by
the projected distance, ascending, and truncate. -/
def order_by_distance_limit (dist : EqRow → ℚ) (n : ℕ) (rows : List EqRow) :
    List EqRow :=
  (rows.mergeSort (fun a b => decide (dist a ≤ dist b))).take n

/-- C4 counterexample: `nearest(lon, lat, 0)` builds SQL with no LIMIT
fragment at all (a zero limit is falsy for `if self._limit:`), so the
built query does not apply the given row limit of `0`. -/
theorem nearest_zero_limit_cex :
    ((EarthquakeQuery.init.nearest 1 2 0).build_sql).1
      = "SELECT *, ST_Distance_Sphere(geom, ST_Point(?, ?)) AS distance_m FROM earthquakes\nWHERE geom IS NOT NULL\nORDER BY distance_m ASC"
    ∧ py_in_str "LIMIT" ((EarthquakeQuery.init.nearest 1 2 0).build_sql).1
      = false :=
  ⟨rfl, rfl⟩

/-- C4 amended: for every chain of filter clauses around
`nearest(lon, lat, limit)`, in any call order, the built parameter list
is `(lon, lat)` first and then the filter parameters in insertion order;
the built SQL selects the distance projection, keeps the filter clauses
in order behind the implicit geometry guard, orders by the projected
distance ascending, and — provided the limit is nonzero (a zero limit is
silently dropped, claim C10) — ends in `LIMIT limit`; the store's
evaluation of that tail returns rows sorted by ascending distance,
truncated at the limit. -/
theorem nearest_params_first (ops1 ops2 : List FilterOp) (lon lat : ℚ)
    (k : ℤ) (hk : k ≠ 0) :
    ((apply_filters ((apply_filters EarthquakeQuery.init ops1).nearest lon lat k) ops2).build_sql).2
      = .num lon :: .num lat :: (filters_params ops1 ++ filters_params ops2)
    ∧ ((apply_filters ((apply_filters EarthquakeQuery.init ops1).nearest lon lat k) ops2).build_sql).1
      = String.intercalate "\n"
          ["SELECT *, ST_Distance_Sphere(geom, ST_Point(?, ?)) AS distance_m FROM earthquakes",
           "WHERE " ++ String.intercalate " AND "
             ("geom IS NOT NULL" :: (filters_clauses ops1 ++ filters_clauses ops2)),
           "ORDER BY distance_m ASC",
           "LIMIT " ++ toString k]
    ∧ (∀ (dist : EqRow → ℚ) (rows : List EqRow),
        (order_by_distance_limit dist k.toNat rows).Pairwise
          (fun a b => dist a ≤ dist b)
        ∧ (order_by_distance_limit dist k.toNat rows).length ≤ k.toNat) := by
  obtain ⟨p1, w1, s1, o1, l1, g1⟩ :=
    apply_filters_effect ops1 EarthquakeQuery.init
  obtain ⟨p2, w2, s2, o2, l2, g2⟩ :=
    apply_filters_effect ops2
      ((apply_filters EarthquakeQuery.init ops1).nearest lon lat k)
  have hq := g2 rfl
  have hsel : (apply_filters ((apply_filters EarthquakeQuery.init ops1).nearest lon lat k) ops2).select_fields
      = "*, ST_Distance_Sphere(geom, ST_Point(?, ?)) AS distance_m" := by
    rw [s2]; rfl
  have hord : (apply_filters ((apply_filters EarthquakeQuery.init ops1).nearest lon lat k) ops2).order_by_clause
      = "distance_m ASC" := by rw [o2]; rfl
  have hlim : (apply_filters ((apply_filters EarthquakeQuery.init ops1).nearest lon lat k) ops2).limit_n
      = some k := by rw [l2]; rfl
  have hpar : (apply_filters ((apply_filters EarthquakeQuery.init ops1).nearest lon lat k) ops2).params
      = .num lon :: .num lat :: (filters_params ops1 ++ filters_params ops2) := by
    rw [p2]
    have : ((apply_filters EarthquakeQuery.init ops1).nearest lon lat k).params
        = .num lon :: .num lat :: filters_params ops1 := by
      show .num lon :: .num lat :: (apply_filters EarthquakeQuery.init ops1).params
          = _
      rw [p1]; rfl
    rw [this]; rfl
  have hwhere : (apply_filters ((apply_filters EarthquakeQuery.init ops1).nearest lon lat k) ops2).where_clauses
      = filters_clauses ops1 ++ filters_clauses ops2 := by
    rw [w2]
    have : ((apply_filters EarthquakeQuery.init ops1).nearest lon lat k).where_clauses
        = filters_clauses ops1 := by
      show (apply_filters EarthquakeQuery.init ops1).where_clauses = _
      rw [w1]; rfl
    rw [this]
  have hin : py_in_str "ST_Distance_Sphere"
      "*, ST_Distance_Sphere(geom, ST_Point(?, ?)) AS distance_m" = true := rfl
  refine ⟨?_, ?_, ?_⟩
  · simp only [EarthquakeQuery.build_sql, hsel, hin, hpar, if_true]
    rfl
  · simp only [EarthquakeQuery.build_sql, hsel, hin, hpar, hwhere, hord,
      hlim, hq, if_true, if_pos hk]
    rfl
  · intro dist rows
    constructor
    · have hs := @List.sorted_mergeSort EqRow
        (fun a b => decide (dist a ≤ dist b))
        (fun a b c hab hbc => by
          simp only [decide_eq_true_eq] at *
          exact le_trans hab hbc)
        (fun a b => by
          simp only [Bool.or_eq_true, decide_eq_true_eq]
          exact le_total (dist a) (dist b))
        rows
      have hst : (order_by_distance_limit dist k.toNat rows).Sublist
          (rows.mergeSort (fun a b => decide (dist a ≤ dist b))) :=
        List.take_sublist _ _
      exact ((hs.sublist hst).imp (fun h => by simp at h; exact h))
    · have := List.length_take_le k.toNat
        (rows.mergeSort (fun a b => decide (dist a ≤ dist b)))
      simp only [order_by_distance_limit]
      exact this

/-- C4 witness: the amended nearest theorem at a `since` filter chained
before `nearest(1, 2, 5)`. -/
theorem nearest_params_first_witness :
    (5 : ℤ) ≠ 0
    ∧ ((apply_filters ((apply_filters EarthquakeQuery.init
          [.since 7200 1]).nearest 1 2 5) []).build_sql).2
        = .num 1 :: .num 2
          :: (filters_params [FilterOp.since 7200 1]
              ++ filters_params ([] : List FilterOp)) :=
  ⟨by norm_num,
   (nearest_params_first [.since 7200 1] [] 1 2 5 (by norm_num)).1⟩

/-! ## Claims C3 and C5: listener behaviour -/

/-- A well-formed feed message as the upstream delivers it:
`{data: {properties: {...}, geometry: {coordinates: [lon, lat]}}}`
with a string identity, a string time, and numeric coordinates and
magnitude (`depth` absent). -/
def valid_feed_msg (u tm reg : String) (lon lat mag : ℚ) : Json :=
  .obj [("action", .str "create"),
        ("data", .obj
          [("properties", .obj
             [("time", .str tm), ("mag", .num mag),
              ("flynn_region", .str reg), ("unid", .str u),
              ("depth", .null)]),
           ("geometry", .obj
             [("type", .str "Point"),
              ("coordinates", .arr [.num lon, .num lat])])])]

/-- A row already persisted for identity `20240101_0000001`, as after a
restart of the process with the store intact. -/
def c3_store_row : DbRow :=
  row_of { unid := "20240101_0000001",
           time := some "2024-01-01T00:00:00.000Z", latitude := 4,
           longitude := 95, depth := none, magnitude := 5,
           region := "NORTHERN SUMATRA" }

/-- C3 counterexample: redelivering a message whose identity is already
persisted leaves the table unchanged but logs the `New EQ` announcement
again — `insert_earthquake` reports success for the duplicate, and the
listener keeps no identity set that could suppress the announcement, so
the event IS re-announced, contrary to the claim. -/
theorem restart_reannounces_cex :
    process_message
        (some (valid_feed_msg "20240101_0000001" "2024-01-01T00:00:00.000Z"
          "NORTHERN SUMATRA" 95 4 5))
        [c3_store_row]
      = .ok ([c3_store_row], [.infoNewEQ 5 "NORTHERN SUMATRA" 4 95]) := by
  rfl

/-- C3 amended: the listener maintains no in-memory identity set —
deduplication of the table rests entirely on the store's
conflict-ignoring insert.  Processing any well-formed message whose
identity already has a row in the store leaves the store unchanged and
still emits the `New EQ` announcement (the duplicate insert reports
success), so a redelivered already-persisted event IS re-announced after
a process restart. -/
theorem redelivered_event_reannounced (u tm reg : String) (lon lat mag : ℚ)
    (store : List DbRow) (htm : tm ≠ "")
    (hdup : store.any (fun r => r.unid == u) = true) :
    process_message (some (valid_feed_msg u tm reg lon lat mag)) store
      = .ok (store,
          [.infoNewEQ mag
            (String.mk (reg.toList.map (fun c => if c = ',' then ' ' else c)))
            lat lon]) := by
  have htm2 : (tm == "") = false := beq_eq_false_iff_ne.mpr htm
  have hdup2 : ∃ x ∈ store, x.unid = u := by
    obtain ⟨r, hr, he⟩ := List.any_eq_true.mp hdup
    exact ⟨r, hr, beq_iff_eq.mp he⟩
  simp [process_message, valid_feed_msg, dict_get, List.lookup, py_index,
    Json.isNull, j_falsy, htm2, py_replace_comma, py_float,
    normalize_event_time, val_to_varchar, insert_earthquake, hdup, hdup2,
    String.toList, except_ok_bind]

/-- C3 witness instance of the amended theorem at concrete data. -/
theorem redelivered_event_reannounced_witness :
    ("2024-01-01T00:00:00.000Z" : String) ≠ ""
    ∧ [c3_store_row].any (fun r => r.unid == "20240101_0000001") = true
    ∧ process_message
        (some (valid_feed_msg "20240101_0000001" "2024-01-01T00:00:00.000Z"
          "FLORES SEA" 120 (-7) 6))
        [c3_store_row]
      = .ok ([c3_store_row],
          [.infoNewEQ 6
            (String.mk ("FLORES SEA".toList.map
              (fun c => if c = ',' then ' ' else c)))
            (-7) 120]) :=
  ⟨by decide, by decide,
   redelivered_event_reannounced "20240101_0000001" "2024-01-01T00:00:00.000Z"
     "FLORES SEA" 120 (-7) 6 [c3_store_row] (by decide) (by decide)⟩

/-- A parseable feed payload whose `geometry.coordinates` list is empty:
every required field (identity, coordinates, magnitude, time) is
missing, so the claim says it is logged and dropped. -/
def c5_payload : Json :=
  .obj [("data", .obj [("geometry", .obj [("coordinates", .arr [])])])]

/-- C5 evidence: on the payload above, `process_message` raises
`IndexError` at `coordinates[0]` (listener.py line 46) — the exception
propagates out of the function instead of the promised log-and-drop
(only `json.JSONDecodeError` is caught).  The companion conjuncts show
the two handled rejection paths do behave as claimed: an unparseable
payload and a well-shaped payload with missing fields are logged and
dropped with zero writes. -/
theorem process_message_short_coordinates_crash (store : List DbRow) :
    process_message (some c5_payload) store = .error .indexError
    ∧ process_message none store = .ok (store, [.warnNotJson])
    ∧ process_message (some (.obj [("data", .obj [])])) store
      = .ok (store, [.warnIncomplete]) :=
  ⟨rfl, rfl, rfl⟩

/-! ## Claim C9: CSV import -/

/-- A CSV data row under an all-uppercase header, exactly the record
shape of the ingestion write path. -/
def c9_upper_row : CsvRow :=
  [("UNID", "A1"), ("TIME", "2024-01-01T00:00:00.000000Z"),
   ("LATITUDE", "20.0"), ("LONGITUDE", "10.0"), ("DEPTH", "10.0"),
   ("MAGNITUDE", "4.5"), ("REGION", "Somewhere")]

/-- The same record under lowercase headers. -/
def c9_lower_row : CsvRow :=
  [("unid", "A1"), ("time", "2024-01-01T00:00:00.000000Z"),
   ("latitude", "20.0"), ("longitude", "10.0"), ("depth", "10.0"),
   ("magnitude", "4.5"), ("region", "Somewhere")]

/-- What the lowercase row imports as. -/
def c9_lower_data : QuakeData :=
  { unid := "A1", time := some "2024-01-01T00:00:00.000000Z",
    latitude := 20, longitude := 10, depth := some 10, magnitude := 9/2,
    region := "Somewhere" }

/-- A lowercase row with an empty identity cell. -/
def c9_no_unid_row : CsvRow :=
  [("unid", ""), ("time", "2024-01-01T00:00:00.000000Z"),
   ("latitude", "20.0"), ("longitude", "10.0"), ("depth", ""),
   ("magnitude", "4.5"), ("region", "Somewhere")]

/-- C9 evidence: importing a file with uppercase headers raises
`KeyError` at `row["latitude"]` (manage.py line 30) and imports nothing —
`import_csv` is not tolerant of uppercase headers for the coordinate
columns, although it is for every other column (`row.get`).  The second
conjunct shows the same record under lowercase headers imports cleanly,
and the third that a lowercase row with an empty identity is skipped. -/
theorem import_csv_uppercase_crash :
    import_csv [c9_upper_row] [] = .error .keyError
    ∧ import_csv [c9_lower_row] [] = .ok ([row_of c9_lower_data], 1)
    ∧ import_csv [c9_no_unid_row] [] = .ok ([], 0) := by
  refine ⟨rfl, ?_, rfl⟩
  simp +decide [import_csv, import_row, csv_get_or, csv_bracket,
    csv_bracket_or_float, csv_depth, py_float_cell, parse_float, trim_chars,
    split_on_char, digits_val, List.lookup, except_ok_bind, insert_earthquake,
    row_of, c9_lower_row, c9_lower_data, List.foldlM, Except.map, Functor.map]
  norm_num
  rfl

/-! ## Claim C7: grid clustering -/

/-- `list_min` of a nonempty list is one of its elements. -/
theorem list_min_mem (x : ℚ) (xs : List ℚ) : list_min (x :: xs) ∈ x :: xs := by
  induction xs generalizing x with
  | nil => simp [list_min]
  | cons a as ih =>
    have hm : list_min (x :: a :: as) = list_min (min x a :: as) := rfl
    rw [hm]
    rcases List.mem_cons.mp (ih (min x a)) with h1 | h1
    · rcases min_choice x a with hc | hc
      · rw [h1, hc]; exact List.mem_cons_self _ _
      · rw [h1, hc]; exact List.mem_cons_of_mem _ (List.mem_cons_self _ _)
    · exact List.mem_cons_of_mem _ (List.mem_cons_of_mem _ h1)

/-- `list_min` of a nonempty list is a lower bound. -/
theorem list_min_le (x : ℚ) (xs : List ℚ) :
    ∀ y ∈ x :: xs, list_min (x :: xs) ≤ y := by
  induction xs generalizing x with
  | nil =>
    intro y hy
    rcases List.mem_cons.mp hy with h | h
    · rw [h]; exact le_refl _
    · cases h
  | cons a as ih =>
    intro y hy
    have hm : list_min (x :: a :: as) = list_min (min x a :: as) := rfl
    rw [hm]
    have hself := ih (min x a) (min x a) (List.mem_cons_self _ _)
    rcases List.mem_cons.mp hy with h1 | h1
    · rw [h1] at *; exact le_trans hself (min_le_left _ _)
    · rcases List.mem_cons.mp h1 with h2 | h2
      · rw [h2] at *; exact le_trans hself (min_le_right _ _)
      · exact ih (min x a) y (List.mem_cons_of_mem _ h2)

/-- `list_max` of a nonempty list is one of its elements. -/
theorem list_max_mem (x : ℚ) (xs : List ℚ) : list_max (x :: xs) ∈ x :: xs := by
  induction xs generalizing x with
  | nil => simp [list_max]
  | cons a as ih =>
    have hm : list_max (x :: a :: as) = list_max (max x a :: as) := rfl
    rw [hm]
    rcases List.mem_cons.mp (ih (max x a)) with h1 | h1
    · rcases max_choice x a with hc | hc
      · rw [h1, hc]; exact List.mem_cons_self _ _
      · rw [h1, hc]; exact List.mem_cons_of_mem _ (List.mem_cons_self _ _)
    · exact List.mem_cons_of_mem _ (List.mem_cons_of_mem _ h1)

/-- `list_max` of a nonempty list is an upper bound. -/
theorem list_max_ge (x : ℚ) (xs : List ℚ) :
    ∀ y ∈ x :: xs, y ≤ list_max (x :: xs) := by
  induction xs generalizing x with
  | nil =>
    intro y hy
    rcases List.mem_cons.mp hy with h | h
    · rw [h]; exact le_refl _
    · cases h
  | cons a as ih =>
    intro y hy
    have hm : list_max (x :: a :: as) = list_max (max x a :: as) := rfl
    rw [hm]
    have hself := ih (max x a) (max x a) (List.mem_cons_self _ _)
    rcases List.mem_cons.mp hy with h1 | h1
    · rw [h1] at *; exact le_trans (le_max_left _ _) hself
    · rcases List.mem_cons.mp h1 with h2 | h2
      · rw [h2] at *; exact le_trans (le_max_right _ _) hself
      · exact ih (max x a) y (List.mem_cons_of_mem _ h2)

/-- C7: with `step = cell_km/111`, every in-window event with non-null
geometry lands in the output cell keyed `(⌊lon/step⌋, ⌊lat/step⌋)`; every
output cell reports, over its member rows, the exact count, the average
magnitude, the minimum and maximum time, and the centroid (mean
longitude/latitude) of the member coordinates; and the function is pure,
so re-running on the same input yields identical buckets and counts. -/
theorem cluster_grid_spec (cell_km now : ℚ) (hours : ℤ) (table : List EqRow)
    (hpos : 0 < cell_km) :
    (∀ r ∈ table, in_window now hours r = true →
      ∃ c ∈ cluster_grid cell_km now hours table,
        c.lon_bin = ⌊r.longitude / (cell_km / 111)⌋
        ∧ c.lat_bin = ⌊r.latitude / (cell_km / 111)⌋)
    ∧ (∀ c ∈ cluster_grid cell_km now hours table,
        c.count = ((table.filter (in_window now hours)).filter
            (fun r => decide (cluster_key (cell_km / 111) r
              = (c.lon_bin, c.lat_bin)))).length
        ∧ 0 < c.count
        ∧ c.avg_magnitude = (((table.filter (in_window now hours)).filter
            (fun r => decide (cluster_key (cell_km / 111) r
              = (c.lon_bin, c.lat_bin)))).map (·.magnitude)).sum / (c.count : ℚ)
        ∧ c.min_time ∈ ((table.filter (in_window now hours)).filter
            (fun r => decide (cluster_key (cell_km / 111) r
              = (c.lon_bin, c.lat_bin)))).map (·.time)
        ∧ (∀ t ∈ ((table.filter (in_window now hours)).filter
            (fun r => decide (cluster_key (cell_km / 111) r
              = (c.lon_bin, c.lat_bin)))).map (·.time), c.min_time ≤ t)
        ∧ c.max_time ∈ ((table.filter (in_window now hours)).filter
            (fun r => decide (cluster_key (cell_km / 111) r
              = (c.lon_bin, c.lat_bin)))).map (·.time)
        ∧ (∀ t ∈ ((table.filter (in_window now hours)).filter
            (fun r => decide (cluster_key (cell_km / 111) r
              = (c.lon_bin, c.lat_bin)))).map (·.time), t ≤ c.max_time)
        ∧ c.center_lon = (((table.filter (in_window now hours)).filter
            (fun r => decide (cluster_key (cell_km / 111) r
              = (c.lon_bin, c.lat_bin)))).map (·.longitude)).sum / (c.count : ℚ)
        ∧ c.center_lat = (((table.filter (in_window now hours)).filter
            (fun r => decide (cluster_key (cell_km / 111) r
              = (c.lon_bin, c.lat_bin)))).map (·.latitude)).sum / (c.count : ℚ))
    ∧ cluster_grid cell_km now hours table
        = cluster_grid cell_km now hours table := by
  refine ⟨?_, ?_, rfl⟩
  · intro r hr hw
    have hrr : r ∈ table.filter (in_window now hours) :=
      List.mem_filter.mpr ⟨hr, hw⟩
    have hkey : cluster_key (cell_km / 111) r
        ∈ ((table.filter (in_window now hours)).map
            (cluster_key (cell_km / 111))).dedup :=
      List.mem_dedup.mpr (List.mem_map_of_mem _ hrr)
    refine ⟨cell_of (cell_km / 111) (table.filter (in_window now hours))
        (cluster_key (cell_km / 111) r), ?_, rfl, rfl⟩
    show _ ∈ List.mergeSort _ _
    exact List.mem_mergeSort.mpr (List.mem_map_of_mem _ hkey)
  · intro c hcm
    have hc3 : c ∈ (((table.filter (in_window now hours)).map
        (cluster_key (cell_km / 111))).dedup).map
          (cell_of (cell_km / 111) (table.filter (in_window now hours))) :=
      List.mem_mergeSort.mp hcm
    obtain ⟨k, hk, hck⟩ := List.mem_map.mp hc3
    obtain ⟨r0, hr0, hkr0⟩ :=
      List.mem_map.mp (List.mem_dedup.mp hk)
    subst hck
    have hbins : ((cell_of (cell_km / 111)
          (table.filter (in_window now hours)) k).lon_bin,
        (cell_of (cell_km / 111)
          (table.filter (in_window now hours)) k).lat_bin) = k := rfl
    rw [hbins]
    have hr0m : r0 ∈ (table.filter (in_window now hours)).filter
        (fun r => decide (cluster_key (cell_km / 111) r = k)) := by
      refine List.mem_filter.mpr ⟨hr0, ?_⟩
      rw [decide_eq_true_eq]
      exact hkr0
    have hne : (table.filter (in_window now hours)).filter
        (fun r => decide (cluster_key (cell_km / 111) r = k)) ≠ [] :=
      List.ne_nil_of_mem hr0m
    obtain ⟨y, ys, hys⟩ := List.exists_cons_of_ne_nil hne
    have htimes : ((table.filter (in_window now hours)).filter
        (fun r => decide (cluster_key (cell_km / 111) r = k))).map (·.time)
        = y.time :: ys.map (·.time) := by rw [hys]; rfl
    refine ⟨rfl, ?_, rfl, ?_, ?_, ?_, ?_, rfl, rfl⟩
    · show 0 < ((table.filter (in_window now hours)).filter
        (fun r => decide (cluster_key (cell_km / 111) r = k))).length
      rw [hys]; exact Nat.succ_pos _
    · show list_min _ ∈ _
      rw [htimes]; exact list_min_mem _ _
    · intro t ht
      show list_min _ ≤ t
      rw [htimes] at *
      exact list_min_le _ _ t ht
    · show list_max _ ∈ _
      rw [htimes]; exact list_max_mem _ _
    · intro t ht
      show t ≤ list_max _
      rw [htimes] at *
      exact list_max_ge _ _ t ht

/-- An in-window row for the C7 witness. -/
def c7_row : EqRow :=
  { unid := "A1", time := 7200, latitude := 20, longitude := 10,
    depth := none, magnitude := 5, region := "X", geom := some (10, 20) }

/-- C7 witness: the clustering theorem at cell size 111 km (one degree)
over a one-row table. -/
theorem cluster_grid_spec_witness :
    (0 : ℚ) < 111
    ∧ ∃ c ∈ cluster_grid 111 7200 1 [c7_row],
        c.lon_bin = ⌊c7_row.longitude / ((111 : ℚ) / 111)⌋
        ∧ c.lat_bin = ⌊c7_row.latitude / ((111 : ℚ) / 111)⌋ :=
  ⟨by norm_num,
   (cluster_grid_spec 111 7200 1 [c7_row] (by norm_num)).1 c7_row
     (by simp)
     (by simp [in_window, cutoff_iso, c7_row])⟩

/-! ## Claim C8: feature projection -/

/-- A result row of the default `SELECT *` projection: the seven event
fields plus the `geom` column and the server-assigned `created_at`. -/
def c8_row : RowKV :=
  [("unid", .str "A1"), ("time", .str "2024-01-01T00:00:00.000000Z"),
   ("latitude", .num 20), ("longitude", .num 10), ("depth", .null),
   ("magnitude", .num 5), ("region", .str "X"),
   ("geom", .str "POINT (10 20)"),
   ("created_at", .str "2024-01-02T00:00:00")]

/-- C8 counterexample: `to_geojson` renders the row's feature with the
fixed seven-field property list, so the non-geometry column
`created_at` present in the row does not appear among the feature's
properties — properties are not "every other column verbatim" for this
projector. -/
theorem to_geojson_drops_created_at_cex :
    c8_row.lookup "created_at" = some (.str "2024-01-02T00:00:00")
    ∧ "created_at" ≠ "geom"
    ∧ to_geojson_features (fun g => g) [c8_row]
        = [mk_feature (.str "POINT (10 20)") (to_geojson_props c8_row)]
    ∧ (to_geojson_props c8_row).lookup "created_at" = none := by
  refine ⟨rfl, by decide, rfl, rfl⟩

/-- C8 amended: the api-layer projector `_to_feature_collection` does
satisfy the claim — every projected feature's geometry is either parsed
from the geometry column (when a truthy `geom_field` with a truthy
string value is present) or the point `(longitude, latitude)`, and its
properties are exactly the row's columns outside `geom` and the
geometry column; the SQL-side `to_geojson` projector instead emits the
fixed property list `unid, time, latitude, longitude, depth, magnitude,
region`, dropping `created_at` and any computed column. -/
theorem feature_projection_amended (loads : String → Option Json)
    (gf : Option String) (row : RowKV) (f : Json)
    (h : feature_of loads gf row = some f) :
    (∃ g, f = mk_feature g (props_of gf row)
      ∧ ((∃ s, gf.bind row.lookup = some (.str s) ∧ loads s = some g)
         ∨ (∃ lon lat, row.lookup "longitude" = some lon
             ∧ row.lookup "latitude" = some lat
             ∧ g = .obj [("type", .str "Point"),
                         ("coordinates", .arr [lon, lat])])))
    ∧ (∀ kv ∈ props_of gf row, kv.1 ≠ "geom" ∧ some kv.1 ≠ gf)
    ∧ (∀ kv ∈ row, kv.1 ≠ "geom" → some kv.1 ≠ gf → kv ∈ props_of gf row)
    ∧ (to_geojson_props row).map Prod.fst
        = ["unid", "time", "latitude", "longitude", "depth", "magnitude",
           "region"] := by
  refine ⟨?_, ?_, ?_, rfl⟩
  · unfold feature_of at h
    split at h
    · split at h
      · next s hs =>
        split at h
        · next g hg =>
          refine ⟨g, by injection h with h2; rw [← h2], .inl ⟨s, hs, hg⟩⟩
        · cases h
      · cases h
    · split at h
      · next lon lat hlon hlat =>
        split at h
        · cases h
        · refine ⟨_, by injection h with h2; rw [← h2],
            .inr ⟨lon, lat, hlon, hlat, rfl⟩⟩
      · cases h
  · intro kv hkv
    have := (List.mem_filter.mp hkv).2
    simp only [Bool.and_eq_true, Bool.not_eq_true'] at this
    exact ⟨by simpa using this.1, by simpa using this.2⟩
  · intro kv hkv h1 h2
    refine List.mem_filter.mpr ⟨hkv, ?_⟩
    simp only [Bool.and_eq_true, Bool.not_eq_true']
    exact ⟨by simpa using h1, by simpa using h2⟩

/-- A buffered-events result row for the C8 witness. -/
def c8w_row : RowKV :=
  [("longitude", .num 10), ("latitude", .num 20), ("magnitude", .num 5)]

/-- C8 witness: the amended projection theorem at a plain point row with
no geometry column. -/
theorem feature_projection_amended_witness :
    feature_of (fun _ => none) none c8w_row
      = some (mk_feature
          (.obj [("type", .str "Point"),
                 ("coordinates", .arr [.num 10, .num 20])])
          (props_of none c8w_row))
    ∧ (∀ kv ∈ props_of none c8w_row, kv.1 ≠ "geom" ∧ some kv.1 ≠ none)
    ∧ (to_geojson_props c8w_row).map Prod.fst
        = ["unid", "time", "latitude", "longitude", "depth", "magnitude",
           "region"] :=
  ⟨rfl,
   (feature_projection_amended (fun _ => none) none c8w_row _ rfl).2.1,
   (feature_projection_amended (fun _ => none) none c8w_row _ rfl).2.2.2⟩
